import Mathlib

/-!
Verification of the tmuxai agent orchestration engine against its
natural-language specification.  The Go sources under `internal/` are
shallowly embedded as Lean functions: pure logic is translated directly,
terminal / network side effects are made explicit as effect traces or
oracle parameters.
-/

deriving instance DecidableEq for Except

namespace TmuxaiVerify

/-! ## Data model (from part_002: `AIResponse`) -/

/-- Parsed model response, from the Go struct `AIResponse`. -/
structure AIResponse where
  Message : String := ""
  SendKeys : List String := []
  ExecCommand : List String := []
  PasteMultilineContent : String := ""
  RequestAccomplished : Bool := false
  ExecPaneSeemsBusy : Bool := false
  WaitingForUserResponse : Bool := false
  NoComment : Bool := false
deriving DecidableEq, Repr

/-! ## Guardrail check (`aiFollowedGuidelines`, process_message.go lines 284-328) -/

/-- Count of true boolean flags, as accumulated by the first block of
`aiFollowedGuidelines`. -/
def boolCount (r : AIResponse) : Nat :=
  (if r.RequestAccomplished then 1 else 0) +
  (if r.ExecPaneSeemsBusy then 1 else 0) +
  (if r.WaitingForUserResponse then 1 else 0) +
  (if r.NoComment then 1 else 0)

/-- Count of non-empty action categories: the Go code builds the list
`[len(ExecCommand), len(SendKeys), paste?1:0]` and counts positive entries. -/
def actionTagCount (r : AIResponse) : Nat :=
  (if r.ExecCommand.length > 0 then 1 else 0) +
  (if r.SendKeys.length > 0 then 1 else 0) +
  (if (if r.PasteMultilineContent = "" then 0 else 1) > 0 then 1 else 0)

/-- `aiFollowedGuidelines` from process_message.go: returns the violation
message and whether the response followed the guidelines. -/
def aiFollowedGuidelines (watchMode : Bool) (r : AIResponse) : String × Bool :=
  if boolCount r > 1 then
    ("You didn\x27t follow the guidelines. Only one boolean flag should be set to true in your response. Pay attention!", false)
  else if actionTagCount r > 1 then
    ("You didn\x27t follow the guidelines. You can only use one type of XML tag in your response. Pay attention!", false)
  else if watchMode = false ∧ actionTagCount r + boolCount r = 0 then
    ("You didn\x27t follow the guidelines. You must use at least one XML tag in your response. Pay attention!", false)
  else
    ("", true)

/-! ## Chat history and the context window manager (squash.go) -/

/-- A conversational turn, from the Go struct `ChatMessage`; the wall-clock
timestamp is modelled as a plain `Nat`. -/
structure ChatMessage where
  Content : String
  FromUser : Bool
  Timestamp : Nat
deriving DecidableEq, Repr

/-- Whether history index 0 holds the pinned system message
(`i == 0 && !msg.FromUser` in `squashHistory`). -/
def hasSystemMessage (msgs : List ChatMessage) : Bool :=
  match msgs with
  | m0 :: _ => !m0.FromUser
  | [] => false

/-- Whether history index 1 holds the pinned baseline assistant message
(`i == 1 && !msg.FromUser && hasSystemMessage` in `squashHistory`). -/
def hasAssistantBaseMessage (msgs : List ChatMessage) : Bool :=
  match msgs with
  | _ :: m1 :: _ => hasSystemMessage msgs && !m1.FromUser
  | _ => false

/-- The `startIdx` computed by `squashHistory`: number of pinned leading
messages. -/
def squashStartIdx (msgs : List ChatMessage) : Nat :=
  (if hasSystemMessage msgs then 1 else 0) +
  (if hasAssistantBaseMessage msgs then 1 else 0)

/-- `m.Messages[startIdx : len(m.Messages)-1]`: the span eligible for
summarization, excluding the pinned prefix and the most recent message. -/
def squashEligibleSpan (msgs : List ChatMessage) : List ChatMessage :=
  (msgs.take (msgs.length - 1)).drop (squashStartIdx msgs)

/-- The role-tagged transcript built by `summarizeChatHistory`. -/
def renderChatLog (msgs : List ChatMessage) : String :=
  msgs.foldl
    (fun acc msg =>
      acc ++ "[" ++ (if msg.FromUser then "User" else "Assistant") ++ "]: " ++
        msg.Content ++ "\n\n")
    ""

/-- The one-shot summarization prompt from `summarizeChatHistory`. -/
def summarizationPrompt (msgs : List ChatMessage) : String :=
  "Below is a chat history between a user and an assistant. Please provide a concise summary of the key points, decisions, and context from this conversation. Focus on the most important information that would be needed to continue the conversation effectively:\n\n"
    ++ renderChatLog msgs

/-- `summarizeChatHistory`: the model collaborator is an oracle from the
full prompt to either an error or the completion text.  On success the
summary is wrapped with the fixed header. -/
def summarizeChatHistory (ai : String → Except String String)
    (msgs : List ChatMessage) : Except String String :=
  match ai (summarizationPrompt msgs) with
  | .error e => .error e
  | .ok summary => .ok ("CHAT HISTORY SUMMARY:\n" ++ summary)

/-- `squashHistory` from squash.go: pure state transformer on the message
history; `now` stands for `time.Now()` on the summary message. -/
def squashHistory (ai : String → Except String String) (now : Nat)
    (msgs : List ChatMessage) : List ChatMessage :=
  let startIdx := squashStartIdx msgs
  if startIdx < msgs.length - 1 then
    match summarizeChatHistory ai (squashEligibleSpan msgs) with
    | .error _ => msgs
    | .ok summarized =>
      (if hasSystemMessage msgs then msgs.take 1 else []) ++
      (if hasAssistantBaseMessage msgs then (msgs.drop 1).take 1 else []) ++
      [{ Content := summarized, FromUser := false, Timestamp := now }]
  else
    msgs

/-! ## Reflection log (part_002: `pruneReflectionLog`, `reflectionLogLimit`) -/

/-- From the Go struct `SuggestedToolAction`. -/
structure SuggestedToolAction where
  Action : String
  Name : String
  Section : String
  Description : String
  Reason : String
  Outcome : String
deriving DecidableEq, Repr

/-- From the Go struct `CommandReflection`; timestamp modelled as `Nat`. -/
structure CommandReflection where
  Command : String
  Output : String
  ExitCode : Int
  LessonsLearned : String
  Alternative : String
  AlternativeRationale : String
  SuggestedActions : List SuggestedToolAction
  Timestamp : Nat
deriving DecidableEq, Repr

/-- `const reflectionLogLimit = 500` -/
def reflectionLogLimit : Nat := 500

/-- `pruneReflectionLog`: keeps the most recent `reflectionLogLimit`
entries; also returns the dropped count that the Go code logs. -/
def pruneReflectionLog (log : List CommandReflection) :
    List CommandReflection × Nat :=
  if reflectionLogLimit ≤ 0 then (log, 0)
  else if log.length ≤ reflectionLogLimit then (log, 0)
  else
    let dropped := log.length - reflectionLogLimit
    (log.drop dropped, dropped)

/-- One append step of `processPendingReflections`: append the new entry
and prune (`m.ReflectionLog = append(...); m.pruneReflectionLog()`). -/
def appendReflection (log : List CommandReflection) (r : CommandReflection) :
    List CommandReflection :=
  (pruneReflectionLog (log ++ [r])).1

/-! ## Whitelist / blacklist check and confirmation bypass (part_002:
`whitelistCheck`, `confirmedToExecFn`).

The Go regexp engine is an external collaborator; it is modelled as an
oracle `matchString : pattern → input → Except error matched`, standing
for `regexp.MatchString`. -/

/-- The whitelist loop of `whitelistCheck`: skips empty patterns, stops
at the first error or the first match. -/
def whitelistLoop (matchString : String → String → Except String Bool)
    (command : String) : List String → Except String Bool
  | [] => .ok false
  | p :: rest =>
    if p = "" then whitelistLoop matchString command rest
    else
      match matchString p command with
      | .error e =>
        .error ("invalid whitelist regex pattern \x27" ++ p ++ "\x27: " ++ e)
      | .ok true => .ok true
      | .ok false => whitelistLoop matchString command rest

/-- The blacklist loop of `whitelistCheck`: skips empty patterns, stops at
the first error or the first match (`.ok true` means a blacklist hit). -/
def blacklistLoop (matchString : String → String → Except String Bool)
    (command : String) : List String → Except String Bool
  | [] => .ok false
  | p :: rest =>
    if p = "" then blacklistLoop matchString command rest
    else
      match matchString p command with
      | .error e =>
        .error ("invalid blacklist regex pattern \x27" ++ p ++ "\x27: " ++ e)
      | .ok true => .ok true
      | .ok false => blacklistLoop matchString command rest

/-- `whitelistCheck`: `(true, none)` only when some non-empty whitelist
pattern matched and the blacklist scan completed with no error and no
match.  Any regexp error maps to `(false, some err)`. -/
def whitelistCheck (matchString : String → String → Except String Bool)
    (whitelist blacklist : List String) (command : String) :
    Bool × Option String :=
  match whitelistLoop matchString command whitelist with
  | .error e => (false, some e)
  | .ok false => (false, none)
  | .ok true =>
    match blacklistLoop matchString command blacklist with
    | .error e => (false, some e)
    | .ok true => (false, none)
    | .ok false => (true, none)

/-- Result of `confirmedToExecFn`; `promptShown` records whether the
interactive confirmation flow was entered at all. -/
structure ConfirmOutcome where
  approved : Bool
  command : String
  promptShown : Bool
deriving DecidableEq, Repr

/-- `confirmedToExecFn`: if the whitelist check approves, return
`(true, command)` without any prompt; otherwise the whole interactive
raw-mode flow (an external terminal interaction) decides, modelled by the
oracle `interact`. -/
def confirmedToExecFn (matchString : String → String → Except String Bool)
    (whitelist blacklist : List String)
    (interact : String → String → Bool → Bool × String)
    (command promptText : String) (edit : Bool) : ConfirmOutcome :=
  let isSafe := (whitelistCheck matchString whitelist blacklist command).1
  if isSafe then ⟨true, command, false⟩
  else
    let res := interact command promptText edit
    ⟨res.1, res.2, true⟩

/-! ## Raw-mode escape sequence reader (part_002: `readEscapeSequence`,
`handleEscapeSequence`, and the ESC case of `readConfirmationInput`).

Terminal input is modelled as the list of bytes that arrive before the
poll timeout: an empty list means `waitForInput` reports not-ready. -/

/-- The break condition of the accumulation loop in `readEscapeSequence`:
a CSI sequence (`ESC [`) is complete once it has ≥ 3 bytes and its last
byte lies in `0x40..0x7E`; an SS3 sequence (`ESC O`) once it has 3 bytes. -/
def escSeqDone (seq : List Nat) : Bool :=
  if (seq[1]? = some 91 ∧ 3 ≤ seq.length ∧
        64 ≤ seq.getLastD 0 ∧ seq.getLastD 0 ≤ 126) ∨
      (seq[1]? = some 79 ∧ 3 ≤ seq.length) then true
  else false

/-- The accumulation loop of `readEscapeSequence`: consume bytes until the
sequence is complete or no byte is available. -/
def escSeqLoop : List Nat → List Nat → List Nat × List Nat
  | seq, [] => (seq, [])
  | seq, b :: rest =>
    if escSeqDone seq then (seq, b :: rest)
    else escSeqLoop (seq ++ [b]) rest

/-- `readEscapeSequence`: starts from the consumed ESC byte (27); returns
the accumulated sequence and the unconsumed input. -/
def readEscapeSequence (input : List Nat) : List Nat × List Nat :=
  match input with
  | [] => ([27], [])
  | b :: rest =>
    if b = 91 ∨ b = 79 then escSeqLoop [27, b] rest
    else ([27, b], rest)

/-- Line-editor state after handling one escape sequence; `didBeep` records
whether the terminal bell was rung. -/
structure EditState where
  buffer : List Char
  cursor : Nat
  didBeep : Bool
deriving DecidableEq, Repr

/-- `handleEscapeSequence`: interprets a full escape sequence against the
in-memory buffer and cursor.  Bytes: `'[' = 91`, `'O' = 79`, `'A' = 65`,
`'B' = 66`, `'C' = 67`, `'D' = 68`, `'H' = 72`, `'F' = 70`, `'3' = 51`,
`'~' = 126`. -/
def handleEscapeSequence (seq : List Nat) (buffer : List Char)
    (cursor : Nat) : EditState :=
  match seq with
  | _ :: c1 :: rest =>
    if c1 = 91 then
      match rest with
      | c2 :: rest2 =>
        if c2 = 68 then
          if cursor > 0 then ⟨buffer, cursor - 1, false⟩
          else ⟨buffer, cursor, true⟩
        else if c2 = 67 then
          if cursor < buffer.length then ⟨buffer, cursor + 1, false⟩
          else ⟨buffer, cursor, true⟩
        else if c2 = 65 ∨ c2 = 66 then ⟨buffer, cursor, true⟩
        else if c2 = 72 then
          if cursor ≠ 0 then ⟨buffer, 0, false⟩
          else ⟨buffer, cursor, true⟩
        else if c2 = 70 then
          if cursor ≠ buffer.length then ⟨buffer, buffer.length, false⟩
          else ⟨buffer, cursor, true⟩
        else if c2 = 51 then
          match rest2 with
          | c3 :: _ =>
            if c3 = 126 then
              if cursor < buffer.length then
                ⟨buffer.eraseIdx cursor, cursor, false⟩
              else ⟨buffer, cursor, true⟩
            else ⟨buffer, cursor, false⟩
          | [] => ⟨buffer, cursor, false⟩
        else ⟨buffer, cursor, false⟩
      | [] => ⟨buffer, cursor, false⟩
    else if c1 = 79 then
      match rest with
      | c2 :: _ =>
        if c2 = 72 then
          if cursor ≠ 0 then ⟨buffer, 0, false⟩
          else ⟨buffer, cursor, true⟩
        else if c2 = 70 then
          if cursor ≠ buffer.length then ⟨buffer, buffer.length, false⟩
          else ⟨buffer, cursor, true⟩
        else ⟨buffer, cursor, true⟩
      | [] => ⟨buffer, cursor, false⟩
    else ⟨buffer, cursor, true⟩
  | _ => ⟨buffer, cursor, false⟩

/-- Result of the `case 27` branch of the `readConfirmationInput` loop. -/
structure EscCaseResult where
  cancelled : Bool
  buffer : List Char
  cursor : Nat
  rest : List Nat
deriving DecidableEq, Repr

/-- The `case 27` branch of `readConfirmationInput`: read the escape
sequence; a length-1 sequence cancels the prompt, otherwise the sequence
is dispatched to `handleEscapeSequence`. -/
def handleEscCase (input : List Nat) (buffer : List Char) (cursor : Nat) :
    EscCaseResult :=
  let res := readEscapeSequence input
  if res.1.length = 1 then ⟨true, buffer, cursor, res.2⟩
  else
    let st := handleEscapeSequence res.1 buffer cursor
    ⟨false, st.buffer, st.cursor, res.2⟩

/-! ## Action phase of `ProcessUserMessage` (process_message.go lines
135-256).

The part of one invocation that runs after a response has been parsed and
validated.  External side effects are recorded as an ordered trace:
confirmation prompts, prepared-mode execution, raw key/text injection into
the pane, the busy-wait countdown, and recursive continuation calls.  The
results of the two recursive `ProcessUserMessage` calls are oracle
parameters (`recurseBusy`, `recurseCont`); the confirmation function
(swappable on the Go struct) is the oracle `confirm`. -/

/-- One observable effect of the action phase. -/
inductive PaneEffect where
  | confirm (command promptText : String) (edit : Bool)
  | execCapture (command : String)
  | sendToPane (text : String) (autoEnter : Bool)
  | countdown (seconds : Nat)
  | recurse (promptText : String)
deriving DecidableEq, Repr

/-- The hardcoded continuation prompt of the busy-wait recursion. -/
def busyContinuationPrompt : String :=
  "waited for 5 more seconds, here is the current pane(s) content"

/-- The hardcoded continuation prompt of the final non-watch recursion. -/
def updatedPaneContinuationPrompt : String :=
  "sending updated pane(s) content"

/-- The `for _, execCommand := range r.ExecCommand` loop: per command,
optionally confirm, then either run via the prepared-mode runner or plain
injection with Enter; a rejection stops the loop (second component
`false`). -/
def runExecCommands (execConfirmReq isPrepared : Bool)
    (confirm : String → String → Bool → Bool × String) :
    List String → List PaneEffect × Bool
  | [] => ([], true)
  | cmd :: rest =>
    let res := if execConfirmReq then confirm cmd "Execute this command?" true
               else (true, cmd)
    let confEff : List PaneEffect :=
      if execConfirmReq then [.confirm cmd "Execute this command?" true] else []
    if res.1 then
      let eff : PaneEffect :=
        if isPrepared then .execCapture res.2 else .sendToPane res.2 true
      let tail := runExecCommands execConfirmReq isPrepared confirm rest
      (confEff ++ [eff] ++ tail.1, tail.2)
    else
      (confEff, false)

/-- The `SendKeys` block: on a non-empty batch, the mid-preview status
check may end the turn; otherwise confirm once for the whole batch and
send each key without Enter.  Second component `false` means the turn
ended inside the block. -/
def runSendKeys (sendKeysConfirmReq : Bool)
    (confirm : String → String → Bool → Bool × String)
    (status : String) (keys : List String) : List PaneEffect × Bool :=
  if keys.isEmpty then ([], true)
  else if status = "" then ([], false)
  else
    let confirmMessage :=
      if keys.length > 1 then "Send all these keys?" else "Send this key?"
    if sendKeysConfirmReq then
      let res := confirm "keys shown above" confirmMessage true
      if res.1 then
        ([.confirm "keys shown above" confirmMessage true] ++
          keys.map (fun k => .sendToPane k false), true)
      else
        ([.confirm "keys shown above" confirmMessage true], false)
    else
      (keys.map (fun k => .sendToPane k false), true)

/-- The `PasteMultilineContent` block: on non-empty content, optionally
confirm (no edit option) and inject the content with Enter; rejection ends
the turn (second component `false`). -/
def runPaste (pasteConfirmReq : Bool)
    (confirm : String → String → Bool → Bool × String)
    (content : String) : List PaneEffect × Bool :=
  if content = "" then ([], true)
  else
    if pasteConfirmReq then
      let res := confirm content "Paste multiline content?" false
      if res.1 then
        ([.confirm content "Paste multiline content?" false,
          .sendToPane content true], true)
      else
        ([.confirm content "Paste multiline content?" false], false)
    else
      ([.sendToPane content true], true)

/-- Outcome of the action phase: final session status, the boolean the
invocation returns, and the ordered effect trace. -/
structure ProcOutcome where
  status : String
  accomplished : Bool
  effects : List PaneEffect
deriving DecidableEq, Repr

/-- The tail of the action phase, from the `PasteMultilineContent` block
(line 214) to the end of the function: paste, then the terminal flags, then
the non-watch-mode continuation recursion. -/
def processTail (r : AIResponse) (watchMode pasteConfirmReq : Bool)
    (confirm : String → String → Bool → Bool × String)
    (recurseCont : Bool) (status : String) (effs : List PaneEffect) :
    ProcOutcome :=
  let paste := runPaste pasteConfirmReq confirm r.PasteMultilineContent
  if paste.2 = false then ⟨"", false, effs ++ paste.1⟩
  else
    let effs := effs ++ paste.1
    if r.RequestAccomplished then ⟨"", true, effs⟩
    else if r.WaitingForUserResponse then ⟨"waiting", false, effs⟩
    else if r.NoComment then ⟨status, false, effs⟩
    else if watchMode = false then
      let effs := effs ++ [.recurse updatedPaneContinuationPrompt]
      if recurseCont then ⟨status, true, effs⟩ else ⟨status, false, effs⟩
    else ⟨status, false, effs⟩

/-- The full action phase of one `ProcessUserMessage` invocation, starting
from the `ExecCommand` loop (line 135): exec commands, send-keys batch,
busy-wait countdown plus recursion, paste, terminal flags, continuation
recursion. -/
def processResponseActions (r : AIResponse) (watchMode : Bool)
    (execConfirmReq sendKeysConfirmReq pasteConfirmReq isPrepared : Bool)
    (confirm : String → String → Bool → Bool × String)
    (waitInterval : Nat) (recurseBusy recurseCont : Bool)
    (status : String) : ProcOutcome :=
  let ex := runExecCommands execConfirmReq isPrepared confirm r.ExecCommand
  if ex.2 = false then ⟨"", false, ex.1⟩
  else
    let keys := runSendKeys sendKeysConfirmReq confirm status r.SendKeys
    if keys.2 = false then ⟨"", false, ex.1 ++ keys.1⟩
    else
      let effs := ex.1 ++ keys.1
      if r.ExecPaneSeemsBusy then
        let effs := effs ++ [.countdown waitInterval,
          .recurse busyContinuationPrompt]
        if recurseBusy then ⟨status, true, effs⟩
        else processTail r watchMode pasteConfirmReq confirm recurseCont
          status effs
      else
        processTail r watchMode pasteConfirmReq confirm recurseCont
          status effs

/-! ## Theorems -/

/-- Claim C1: for every constructed `AIResponse` and every watch-mode
setting, `aiFollowedGuidelines` reports the response invalid iff the true
boolean-flag count exceeds 1, or the non-empty action-category count
exceeds 1, or watch mode is off and the two counts sum to 0; when valid it
returns an empty violation message. -/
theorem guardrail_invariant (watchMode : Bool) (r : AIResponse) :
    ((aiFollowedGuidelines watchMode r).2 = false ↔
      boolCount r > 1 ∨ actionTagCount r > 1 ∨
        (watchMode = false ∧ boolCount r + actionTagCount r = 0))
    ∧ ((aiFollowedGuidelines watchMode r).2 = true →
        (aiFollowedGuidelines watchMode r).1 = "") := by
  unfold aiFollowedGuidelines
  split_ifs with h1 h2 h3
  · exact ⟨⟨fun _ => Or.inl h1, fun _ => rfl⟩, fun h => by simp at h⟩
  · exact ⟨⟨fun _ => Or.inr (Or.inl h2), fun _ => rfl⟩, fun h => by simp at h⟩
  · exact ⟨⟨fun _ => Or.inr (Or.inr ⟨h3.1, by omega⟩), fun _ => rfl⟩,
      fun h => by simp at h⟩
  · refine ⟨⟨fun h => by simp at h, fun hrhs => ?_⟩, fun _ => rfl⟩
    exfalso
    rcases hrhs with h | h | h
    · exact h1 h
    · exact h2 h
    · exact h3 ⟨h.1, by omega⟩

/-- Witness for C1: a lone `RequestAccomplished` flag outside watch mode is
valid and yields the empty violation message. -/
theorem guardrail_invariant_witness :
    (aiFollowedGuidelines false { RequestAccomplished := true }).2 = true ∧
    (aiFollowedGuidelines false { RequestAccomplished := true }).1 = "" :=
  ⟨by decide, (guardrail_invariant false { RequestAccomplished := true }).2 (by decide)⟩

/-- Claim C2: on a history `[system, baseline, A, B, C, finalUser]` whose
first two messages are pinned (not from the user), a successful squash
replaces the history by `[system, baseline, summaryMessage]`, and the span
handed to the summarization model is exactly `[A, B, C]` — the trailing
user message is excluded. -/
theorem squash_preserves_pins (s b A B C u : ChatMessage)
    (ai : String → Except String String) (now : Nat) (summary : String)
    (hs : s.FromUser = false) (hb : b.FromUser = false)
    (_hu : u.FromUser = true)
    (hai : ai (summarizationPrompt [A, B, C]) = .ok summary) :
    squashHistory ai now [s, b, A, B, C, u] =
      [s, b, { Content := "CHAT HISTORY SUMMARY:\n" ++ summary,
               FromUser := false, Timestamp := now }]
    ∧ squashEligibleSpan [s, b, A, B, C, u] = [A, B, C] := by
  have hspan : squashEligibleSpan [s, b, A, B, C, u] = [A, B, C] := by
    simp [squashEligibleSpan, squashStartIdx, hasSystemMessage,
      hasAssistantBaseMessage, hs, hb]
  refine ⟨?_, hspan⟩
  simp [squashHistory, squashStartIdx, hasSystemMessage,
    hasAssistantBaseMessage, hs, hb, summarizeChatHistory, hspan, hai]

/-- Witness for C2, on a concrete six-message history and a summarizer
oracle that always succeeds. -/
theorem squash_preserves_pins_witness :
    squashHistory (fun _ => .ok "short") 9
        [⟨"sys", false, 0⟩, ⟨"base", false, 1⟩, ⟨"a", true, 2⟩,
         ⟨"b", false, 3⟩, ⟨"c", true, 4⟩, ⟨"final", true, 5⟩] =
      [⟨"sys", false, 0⟩, ⟨"base", false, 1⟩,
       ⟨"CHAT HISTORY SUMMARY:\nshort", false, 9⟩]
    ∧ squashEligibleSpan
        [⟨"sys", false, 0⟩, ⟨"base", false, 1⟩, ⟨"a", true, 2⟩,
         ⟨"b", false, 3⟩, ⟨"c", true, 4⟩, ⟨"final", true, 5⟩] =
      [⟨"a", true, 2⟩, ⟨"b", false, 3⟩, ⟨"c", true, 4⟩] :=
  squash_preserves_pins ⟨"sys", false, 0⟩ ⟨"base", false, 1⟩ ⟨"a", true, 2⟩
    ⟨"b", false, 3⟩ ⟨"c", true, 4⟩ ⟨"final", true, 5⟩ (fun _ => .ok "short")
    9 "short" rfl rfl rfl rfl

/-- Claim C8: if the summarization request fails, `squashHistory` leaves
the message history exactly unchanged. -/
theorem squash_atomic_on_failure (msgs : List ChatMessage)
    (ai : String → Except String String) (now : Nat) (e : String)
    (hai : ai (summarizationPrompt (squashEligibleSpan msgs)) =
      .error e) :
    squashHistory ai now msgs = msgs := by
  have hsum : summarizeChatHistory ai (squashEligibleSpan msgs) =
      .error e := by
    unfold summarizeChatHistory
    rw [hai]
  unfold squashHistory
  simp only [hsum]
  simp

/-- Witness for C8: a failing summarizer leaves a concrete over-threshold
history untouched. -/
theorem squash_atomic_on_failure_witness :
    squashHistory (fun _ => .error "boom") 9
        [⟨"sys", false, 0⟩, ⟨"base", false, 1⟩, ⟨"a", true, 2⟩,
         ⟨"b", false, 3⟩, ⟨"c", true, 4⟩, ⟨"final", true, 5⟩] =
      [⟨"sys", false, 0⟩, ⟨"base", false, 1⟩, ⟨"a", true, 2⟩,
       ⟨"b", false, 3⟩, ⟨"c", true, 4⟩, ⟨"final", true, 5⟩] :=
  squash_atomic_on_failure _ (fun _ => .error "boom") 9 "boom" rfl

/-- Pruning is the identity while the log is within the cap. -/
theorem pruneReflectionLog_of_le (log : List CommandReflection)
    (h : log.length ≤ reflectionLogLimit) :
    pruneReflectionLog log = (log, 0) := by
  unfold pruneReflectionLog
  simp [reflectionLogLimit] at h ⊢
  omega

/-- Folding append-and-prune never prunes while the total stays within the
cap. -/
theorem foldl_appendReflection (l acc : List CommandReflection)
    (h : acc.length + l.length ≤ reflectionLogLimit) :
    l.foldl appendReflection acc = acc ++ l := by
  induction l generalizing acc with
  | nil => simp
  | cons x xs ih =>
    have hx : (acc ++ [x]).length ≤ reflectionLogLimit := by
      simp at h ⊢; omega
    have hstep : appendReflection acc x = acc ++ [x] := by
      unfold appendReflection
      rw [pruneReflectionLog_of_le _ hx]
    rw [List.foldl_cons, hstep, ih]
    · simp
    · simp at h ⊢; omega

/-- Claim C4: appending 500 reflections to an empty log keeps all of them;
the 501st append prunes to exactly the 500 most recent entries in order,
with a reported dropped count of 1. -/
theorem reflection_log_cap (es : List CommandReflection)
    (e : CommandReflection) (h : es.length = 500) :
    es.foldl appendReflection [] = es
    ∧ pruneReflectionLog (es.foldl appendReflection [] ++ [e]) =
        ((es ++ [e]).drop 1, 1)
    ∧ ((es ++ [e]).drop 1).length = reflectionLogLimit := by
  have hfold : es.foldl appendReflection [] = es := by
    apply foldl_appendReflection
    simp [reflectionLogLimit, h]
  refine ⟨hfold, ?_, ?_⟩
  · rw [hfold]
    unfold pruneReflectionLog
    have hlen : (es ++ [e]).length = 501 := by simp [h]
    simp [reflectionLogLimit, hlen]
  · simp [reflectionLogLimit, h]

/-- A distinguishable sample reflection entry. -/
def sampleReflection (i : Nat) : CommandReflection :=
  ⟨"cmd", "out", Int.ofNat i, "", "", "", [], i⟩

/-- Witness for C4 on 501 concrete, pairwise distinct entries. -/
theorem reflection_log_cap_witness :
    ((List.range 500).map sampleReflection).length = 500
    ∧ (((List.range 500).map sampleReflection).foldl appendReflection [] =
        (List.range 500).map sampleReflection
      ∧ pruneReflectionLog
          (((List.range 500).map sampleReflection).foldl appendReflection []
            ++ [sampleReflection 500]) =
          (((List.range 500).map sampleReflection ++ [sampleReflection 500]).drop 1, 1)
      ∧ (((List.range 500).map sampleReflection ++ [sampleReflection 500]).drop 1).length =
          reflectionLogLimit) :=
  ⟨by simp, reflection_log_cap _ (sampleReflection 500) (by simp)⟩

/-- If every non-empty pattern evaluates without error and some non-empty
pattern matches, the whitelist loop reports a match. -/
theorem whitelistLoop_ok_true
    (matchString : String → String → Except String Bool) (command : String)
    (l : List String)
    (hvalid : ∀ p ∈ l, p ≠ "" → ∃ b, matchString p command = Except.ok b)
    (hmatch : ∃ p ∈ l, p ≠ "" ∧ matchString p command = Except.ok true) :
    whitelistLoop matchString command l = .ok true := by
  induction l with
  | nil =>
    obtain ⟨p, hp, _⟩ := hmatch
    cases hp
  | cons q rest ih =>
    unfold whitelistLoop
    by_cases hq : q = ""
    · rw [if_pos hq]
      apply ih
      · exact fun p hp hne => hvalid p (List.mem_cons_of_mem _ hp) hne
      · obtain ⟨p, hp, hne, hm⟩ := hmatch
        rcases List.mem_cons.mp hp with rfl | hp'
        · exact absurd hq hne
        · exact ⟨p, hp', hne, hm⟩
    · rw [if_neg hq]
      obtain ⟨b, hb⟩ := hvalid q (List.mem_cons_self _ _) hq
      cases b
      · rw [hb]
        apply ih
        · exact fun p hp hne => hvalid p (List.mem_cons_of_mem _ hp) hne
        · obtain ⟨p, hp, hne, hm⟩ := hmatch
          rcases List.mem_cons.mp hp with rfl | hp'
          · rw [hb] at hm
            simp at hm
          · exact ⟨p, hp', hne, hm⟩
      · rw [hb]

/-- If every non-empty pattern evaluates without error and none matches,
the blacklist loop reports no hit. -/
theorem blacklistLoop_ok_false
    (matchString : String → String → Except String Bool) (command : String)
    (l : List String)
    (hvalid : ∀ p ∈ l, p ≠ "" → ∃ b, matchString p command = Except.ok b)
    (hnone : ∀ p ∈ l, p ≠ "" → matchString p command ≠ Except.ok true) :
    blacklistLoop matchString command l = .ok false := by
  induction l with
  | nil => rfl
  | cons q rest ih =>
    unfold blacklistLoop
    by_cases hq : q = ""
    · rw [if_pos hq]
      exact ih (fun p hp hne => hvalid p (List.mem_cons_of_mem _ hp) hne)
        (fun p hp hne => hnone p (List.mem_cons_of_mem _ hp) hne)
    · rw [if_neg hq]
      obtain ⟨b, hb⟩ := hvalid q (List.mem_cons_self _ _) hq
      cases b
      · rw [hb]
        exact ih (fun p hp hne => hvalid p (List.mem_cons_of_mem _ hp) hne)
          (fun p hp hne => hnone p (List.mem_cons_of_mem _ hp) hne)
      · exact absurd hb (hnone q (List.mem_cons_self _ _) hq)

/-- Counterexample to claim C5 as stated: the empty string is a valid Go
regular expression that matches every command (here the oracle
`matchesEverything` returns what `regexp.MatchString` returns on the empty
pattern), so a whitelist consisting of the configured pattern `""` is
matched by the command; yet `confirmedToExecFn` still enters the
interactive prompt because `whitelistCheck` skips empty patterns. -/
def matchesEverything : String → String → Except String Bool :=
  fun _ _ => .ok true

/-- The interactive oracle that approves everything unchanged. -/
def approveInteract : String → String → Bool → Bool × String :=
  fun c _ _ => (true, c)

/-- Claim C5 is false as stated: command together with whitelist `[""]`
and empty blacklist satisfies the claim's hypotheses (a configured
whitelist pattern matches, no blacklist pattern matches, all patterns are
valid regexes), yet the interactive prompt is shown. -/
theorem whitelist_bypass_counterexample :
    matchesEverything "" "ls -la" = Except.ok true
    ∧ "" ∈ [""]
    ∧ (∀ p ∈ ([] : List String),
        matchesEverything p "ls -la" ≠ Except.ok true)
    ∧ (confirmedToExecFn matchesEverything [""] [] approveInteract "ls -la"
        "Execute this command?" true).promptShown = true := by
  decide

/-- Claim C5 (amended): every command matching at least one non-empty
whitelist pattern and no non-empty blacklist pattern, with all evaluated
patterns valid, is approved as `(true, command)` without the interactive
prompt ever being shown. -/
theorem whitelist_bypass
    (matchString : String → String → Except String Bool)
    (wl bl : List String)
    (interact : String → String → Bool → Bool × String)
    (command promptText : String) (edit : Bool)
    (hvalid : ∀ p ∈ wl ++ bl, p ≠ "" →
      ∃ b, matchString p command = Except.ok b)
    (hmatch : ∃ p ∈ wl, p ≠ "" ∧ matchString p command = Except.ok true)
    (hblack : ∀ p ∈ bl, p ≠ "" → matchString p command ≠ Except.ok true) :
    confirmedToExecFn matchString wl bl interact command promptText edit =
      ⟨true, command, false⟩ := by
  have hw : whitelistLoop matchString command wl = .ok true :=
    whitelistLoop_ok_true matchString command wl
      (fun p hp hne => hvalid p (List.mem_append_left _ hp) hne) hmatch
  have hb : blacklistLoop matchString command bl = .ok false :=
    blacklistLoop_ok_false matchString command bl
      (fun p hp hne => hvalid p (List.mem_append_right _ hp) hne) hblack
  unfold confirmedToExecFn whitelistCheck
  rw [hw, hb]
  rfl

/-- A concrete matching oracle for the whitelist witnesses. -/
def echoMatcher : String → String → Except String Bool :=
  fun p _ => .ok (p == "^echo")

/-- Witness for the amended C5 at a concrete configuration. -/
theorem whitelist_bypass_witness :
    ((∀ p ∈ ["^echo"] ++ ["rm"], p ≠ "" →
        ∃ b, echoMatcher p "echo hi" = Except.ok b)
      ∧ (∃ p ∈ ["^echo"], p ≠ "" ∧ echoMatcher p "echo hi" = Except.ok true)
      ∧ (∀ p ∈ ["rm"], p ≠ "" → echoMatcher p "echo hi" ≠ Except.ok true))
    ∧ confirmedToExecFn echoMatcher ["^echo"] ["rm"] approveInteract
        "echo hi" "Execute this command?" true = ⟨true, "echo hi", false⟩ :=
  ⟨⟨by decide, by decide, by decide⟩,
    whitelist_bypass echoMatcher ["^echo"] ["rm"] approveInteract "echo hi"
      "Execute this command?" true (by decide) (by decide) (by decide)⟩

/-- Counterexample to claim C9 as stated: with a whitelisted command and a
blacklist consisting of the configured pattern `""` — a valid Go regular
expression that matches every string (the oracle `matchesEverything`
returns what `regexp.MatchString` returns on the empty pattern) —
`whitelistCheck` still returns `true`, because the blacklist loop skips
empty patterns; so "matches no blacklist pattern" does not hold
unqualified. -/
theorem whitelist_fails_closed_counterexample :
    (whitelistCheck matchesEverything ["a"] [""] "ls -la").1 = true
    ∧ "" ∈ [""]
    ∧ matchesEverything "" "ls -la" = Except.ok true := by
  decide

/-- A whitelist-loop match means some evaluated non-empty pattern matched. -/
theorem whitelistLoop_true_sound
    (matchString : String → String → Except String Bool) (command : String)
    (l : List String) :
    whitelistLoop matchString command l = .ok true →
    ∃ p ∈ l, p ≠ "" ∧ matchString p command = Except.ok true := by
  induction l with
  | nil =>
    intro h
    simp [whitelistLoop] at h
  | cons q rest ih =>
    intro h
    unfold whitelistLoop at h
    by_cases hq : q = ""
    · rw [if_pos hq] at h
      obtain ⟨p, hp, hne, hm⟩ := ih h
      exact ⟨p, List.mem_cons_of_mem _ hp, hne, hm⟩
    · rw [if_neg hq] at h
      cases hmc : matchString q command with
      | error e =>
        rw [hmc] at h
        simp at h
      | ok b =>
        cases b
        · rw [hmc] at h
          obtain ⟨p, hp, hne, hm⟩ := ih h
          exact ⟨p, List.mem_cons_of_mem _ hp, hne, hm⟩
        · exact ⟨q, List.mem_cons_self _ _, hq, hmc⟩

/-- A clean blacklist scan means every evaluated non-empty pattern
affirmatively failed to match (no errors, no hits). -/
theorem blacklistLoop_false_sound
    (matchString : String → String → Except String Bool) (command : String)
    (l : List String) :
    blacklistLoop matchString command l = .ok false →
    ∀ p ∈ l, p ≠ "" → matchString p command = Except.ok false := by
  induction l with
  | nil =>
    intro _ p hp
    cases hp
  | cons q rest ih =>
    intro h p hp hne
    unfold blacklistLoop at h
    by_cases hq : q = ""
    · rw [if_pos hq] at h
      rcases List.mem_cons.mp hp with rfl | hp'
      · exact absurd hq hne
      · exact ih h p hp' hne
    · rw [if_neg hq] at h
      cases hmc : matchString q command with
      | error e =>
        rw [hmc] at h
        simp at h
      | ok b =>
        cases b
        · rcases List.mem_cons.mp hp with rfl | hp'
          · exact hmc
          · rw [hmc] at h
            exact ih h p hp' hne
        · rw [hmc] at h
          simp at h

/-- Claim C9 (amended): whitelist checking fails closed — `whitelistCheck`
returns `true` only when some non-empty whitelist pattern matched and
every non-empty blacklist pattern affirmatively did not match (so no
evaluated pattern errored, and an invalid evaluated pattern can never
cause auto-approval); and `confirmedToExecFn` skips the interactive
prompt only when `whitelistCheck` returned `true`. -/
theorem whitelist_fails_closed
    (matchString : String → String → Except String Bool)
    (wl bl : List String) (command : String) :
    ((whitelistCheck matchString wl bl command).1 = true →
      (∃ p ∈ wl, p ≠ "" ∧ matchString p command = Except.ok true)
      ∧ (∀ p ∈ bl, p ≠ "" → matchString p command = Except.ok false))
    ∧ (∀ (interact : String → String → Bool → Bool × String)
        (promptText : String) (edit : Bool),
        (confirmedToExecFn matchString wl bl interact command promptText
          edit).promptShown = false →
        (whitelistCheck matchString wl bl command).1 = true) := by
  constructor
  · intro h
    unfold whitelistCheck at h
    cases hw : whitelistLoop matchString command wl with
    | error e =>
      rw [hw] at h
      simp at h
    | ok b =>
      cases b
      · rw [hw] at h
        simp at h
      · cases hb : blacklistLoop matchString command bl with
        | error e =>
          rw [hw, hb] at h
          simp at h
        | ok b2 =>
          cases b2
          · exact ⟨whitelistLoop_true_sound matchString command wl hw,
              blacklistLoop_false_sound matchString command bl hb⟩
          · rw [hw, hb] at h
            simp at h
  · intro interact promptText edit h
    by_cases hs : (whitelistCheck matchString wl bl command).1 = true
    · exact hs
    · exfalso
      rw [Bool.not_eq_true] at hs
      simp [confirmedToExecFn, hs] at h

/-- Witness for C9 at a concrete configuration where the check passes. -/
theorem whitelist_fails_closed_witness :
    ((∃ p ∈ ["^echo"], p ≠ "" ∧ echoMatcher p "echo hi" = Except.ok true)
      ∧ (∀ p ∈ ["rm"], p ≠ "" → echoMatcher p "echo hi" = Except.ok false))
    ∧ (whitelistCheck echoMatcher ["^echo"] ["rm"] "echo hi").1 = true :=
  ⟨(whitelist_fails_closed echoMatcher ["^echo"] ["rm"] "echo hi").1
      (by decide),
    (whitelist_fails_closed echoMatcher ["^echo"] ["rm"] "echo hi").2
      approveInteract "Execute this command?" true (by decide)⟩

/-- Claim C6: a bare ESC with no follow-up byte within the poll timeout
yields the length-1 sequence `[27]`, which the confirmation loop treats as
cancellation; the bytes `27 '[' 'D'` accumulate to `[27, 91, 68]` — a CSI
sequence whose terminator lies in `0x40..0x7E` — and are interpreted as a
left-cursor move with no cancellation. -/
theorem escape_disambiguation (buffer : List Char) (cursor : Nat) :
    ((readEscapeSequence []).1 = [27]
      ∧ (readEscapeSequence []).1.length = 1
      ∧ (handleEscCase [] buffer cursor).cancelled = true)
    ∧ ((readEscapeSequence [91, 68]).1 = [27, 91, 68]
      ∧ 64 ≤ (readEscapeSequence [91, 68]).1.getLastD 0
      ∧ (readEscapeSequence [91, 68]).1.getLastD 0 ≤ 126
      ∧ (cursor > 0 →
          handleEscCase [91, 68] buffer cursor =
            ⟨false, buffer, cursor - 1, []⟩)) := by
  have hseq : readEscapeSequence [91, 68] = ([27, 91, 68], []) := by
    simp [readEscapeSequence, escSeqLoop, escSeqDone]
  refine ⟨⟨rfl, rfl, rfl⟩, ?_, ?_, ?_, ?_⟩
  · rw [hseq]
  · rw [hseq]; decide
  · rw [hseq]; decide
  · intro h
    have hmove : handleEscapeSequence [27, 91, 68] buffer cursor =
        ⟨buffer, cursor - 1, false⟩ := by
      unfold handleEscapeSequence
      simp [h]
    simp [handleEscCase, hseq, hmove]

/-- Recognizer for the Delete-forward escape sequence `ESC '[' '3' '~'`
(with any trailing bytes). -/
def isDeleteForwardSeq : List Nat → Bool
  | _ :: 91 :: 51 :: 126 :: _ => true
  | _ => false

/-- Shape lemma: `ESC '[' 'D'` moves the cursor left, or beeps at the
boundary. -/
theorem hes_left (b0 : Nat) (rest2 : List Nat) (buffer : List Char)
    (cursor : Nat) :
    handleEscapeSequence (b0 :: 91 :: 68 :: rest2) buffer cursor =
      if cursor > 0 then ⟨buffer, cursor - 1, false⟩
      else ⟨buffer, cursor, true⟩ := rfl

/-- Shape lemma: `ESC '[' 'C'` moves the cursor right, or beeps. -/
theorem hes_right (b0 : Nat) (rest2 : List Nat) (buffer : List Char)
    (cursor : Nat) :
    handleEscapeSequence (b0 :: 91 :: 67 :: rest2) buffer cursor =
      if cursor < buffer.length then ⟨buffer, cursor + 1, false⟩
      else ⟨buffer, cursor, true⟩ := rfl

/-- Shape lemma: `ESC '[' 'A'` beeps. -/
theorem hes_up (b0 : Nat) (rest2 : List Nat) (buffer : List Char)
    (cursor : Nat) :
    handleEscapeSequence (b0 :: 91 :: 65 :: rest2) buffer cursor =
      ⟨buffer, cursor, true⟩ := rfl

/-- Shape lemma: `ESC '[' 'B'` beeps. -/
theorem hes_down (b0 : Nat) (rest2 : List Nat) (buffer : List Char)
    (cursor : Nat) :
    handleEscapeSequence (b0 :: 91 :: 66 :: rest2) buffer cursor =
      ⟨buffer, cursor, true⟩ := rfl

/-- Shape lemma: `ESC '[' 'H'` jumps to the start of the buffer. -/
theorem hes_home (b0 : Nat) (rest2 : List Nat) (buffer : List Char)
    (cursor : Nat) :
    handleEscapeSequence (b0 :: 91 :: 72 :: rest2) buffer cursor =
      if cursor ≠ 0 then ⟨buffer, 0, false⟩
      else ⟨buffer, cursor, true⟩ := rfl

/-- Shape lemma: `ESC '[' 'F'` jumps to the end of the buffer. -/
theorem hes_end (b0 : Nat) (rest2 : List Nat) (buffer : List Char)
    (cursor : Nat) :
    handleEscapeSequence (b0 :: 91 :: 70 :: rest2) buffer cursor =
      if cursor ≠ buffer.length then ⟨buffer, buffer.length, false⟩
      else ⟨buffer, cursor, true⟩ := rfl

/-- Shape lemma: `ESC '[' '3'` followed by at least one byte is
Delete-forward exactly when that byte is `'~'`. -/
theorem hes_del_cons (b0 c3 : Nat) (rest3 : List Nat) (buffer : List Char)
    (cursor : Nat) :
    handleEscapeSequence (b0 :: 91 :: 51 :: c3 :: rest3) buffer cursor =
      if c3 = 126 then
        (if cursor < buffer.length then
          ⟨buffer.eraseIdx cursor, cursor, false⟩
         else ⟨buffer, cursor, true⟩)
      else ⟨buffer, cursor, false⟩ := rfl

/-- Shape lemma: a bare `ESC '[' '3'` does nothing. -/
theorem hes_del_nil (b0 : Nat) (buffer : List Char) (cursor : Nat) :
    handleEscapeSequence [b0, 91, 51] buffer cursor =
      ⟨buffer, cursor, false⟩ := rfl

/-- Shape lemma: an unrecognized CSI byte does nothing (no beep: the Go
inner switch has no default case). -/
theorem hes_csi_other (b0 c2 : Nat) (rest2 : List Nat) (buffer : List Char)
    (cursor : Nat)
    (h68 : c2 ≠ 68) (h67 : c2 ≠ 67) (h65 : c2 ≠ 65) (h66 : c2 ≠ 66)
    (h72 : c2 ≠ 72) (h70 : c2 ≠ 70) (h51 : c2 ≠ 51) :
    handleEscapeSequence (b0 :: 91 :: c2 :: rest2) buffer cursor =
      ⟨buffer, cursor, false⟩ := by
  simp [handleEscapeSequence, h68, h67, h65, h66, h72, h70, h51]

/-- Shape lemma: `ESC 'O' 'H'` jumps to the start of the buffer. -/
theorem hes_ss3_home (b0 : Nat) (rest2 : List Nat) (buffer : List Char)
    (cursor : Nat) :
    handleEscapeSequence (b0 :: 79 :: 72 :: rest2) buffer cursor =
      if cursor ≠ 0 then ⟨buffer, 0, false⟩
      else ⟨buffer, cursor, true⟩ := rfl

/-- Shape lemma: `ESC 'O' 'F'` jumps to the end of the buffer. -/
theorem hes_ss3_end (b0 : Nat) (rest2 : List Nat) (buffer : List Char)
    (cursor : Nat) :
    handleEscapeSequence (b0 :: 79 :: 70 :: rest2) buffer cursor =
      if cursor ≠ buffer.length then ⟨buffer, buffer.length, false⟩
      else ⟨buffer, cursor, true⟩ := rfl

/-- Shape lemma: an unrecognized SS3 byte beeps. -/
theorem hes_ss3_other (b0 c2 : Nat) (rest2 : List Nat) (buffer : List Char)
    (cursor : Nat) (h72 : c2 ≠ 72) (h70 : c2 ≠ 70) :
    handleEscapeSequence (b0 :: 79 :: c2 :: rest2) buffer cursor =
      ⟨buffer, cursor, true⟩ := by
  simp [handleEscapeSequence, h72, h70]

/-- Shape lemma: a bare `ESC '['` does nothing. -/
theorem hes_csi_nil (b0 : Nat) (buffer : List Char) (cursor : Nat) :
    handleEscapeSequence [b0, 91] buffer cursor =
      ⟨buffer, cursor, false⟩ := rfl

/-- Shape lemma: a bare `ESC 'O'` does nothing. -/
theorem hes_ss3_nil (b0 : Nat) (buffer : List Char) (cursor : Nat) :
    handleEscapeSequence [b0, 79] buffer cursor =
      ⟨buffer, cursor, false⟩ := rfl

/-- Shape lemma: an unrecognized second byte beeps. -/
theorem hes_unknown (b0 c1 : Nat) (rest : List Nat) (buffer : List Char)
    (cursor : Nat) (h91 : c1 ≠ 91) (h79 : c1 ≠ 79) :
    handleEscapeSequence (b0 :: c1 :: rest) buffer cursor =
      ⟨buffer, cursor, true⟩ := by
  simp [handleEscapeSequence, h91, h79]

/-- Claim C10: `handleEscapeSequence` preserves `cursor ≤ buffer.length`,
and modifies the buffer only on a Delete-forward sequence, which erases
exactly the rune at the cursor (leaving the cursor in place); every other
sequence leaves the buffer unchanged. -/
theorem editor_buffer_invariant (seq : List Nat) (buffer : List Char)
    (cursor : Nat) (h : cursor ≤ buffer.length) :
    (handleEscapeSequence seq buffer cursor).cursor ≤
      (handleEscapeSequence seq buffer cursor).buffer.length
    ∧ ((handleEscapeSequence seq buffer cursor).buffer = buffer
      ∨ (isDeleteForwardSeq seq = true ∧ cursor < buffer.length
        ∧ (handleEscapeSequence seq buffer cursor).buffer =
            buffer.eraseIdx cursor
        ∧ (handleEscapeSequence seq buffer cursor).cursor = cursor)) := by
  rcases seq with _ | ⟨b0, _ | ⟨c1, rest⟩⟩
  · exact ⟨h, Or.inl rfl⟩
  · exact ⟨h, Or.inl rfl⟩
  · by_cases h91 : c1 = 91
    · subst h91
      rcases rest with _ | ⟨c2, rest2⟩
      · exact ⟨h, Or.inl rfl⟩
      · by_cases h68 : c2 = 68
        · subst h68
          rw [hes_left]
          split_ifs <;> exact ⟨by simp <;> omega, Or.inl rfl⟩
        · by_cases h67 : c2 = 67
          · subst h67
            rw [hes_right]
            split_ifs <;> exact ⟨by simp <;> omega, Or.inl rfl⟩
          · by_cases h65 : c2 = 65
            · subst h65
              rw [hes_up]
              exact ⟨h, Or.inl rfl⟩
            · by_cases h66 : c2 = 66
              · subst h66
                rw [hes_down]
                exact ⟨h, Or.inl rfl⟩
              · by_cases h72 : c2 = 72
                · subst h72
                  rw [hes_home]
                  split_ifs <;> exact ⟨by simp <;> omega, Or.inl rfl⟩
                · by_cases h70 : c2 = 70
                  · subst h70
                    rw [hes_end]
                    split_ifs <;> exact ⟨by simp <;> omega, Or.inl rfl⟩
                  · by_cases h51 : c2 = 51
                    · subst h51
                      rcases rest2 with _ | ⟨c3, rest3⟩
                      · rw [hes_del_nil]
                        exact ⟨h, Or.inl rfl⟩
                      · by_cases h126 : c3 = 126
                        · subst h126
                          rw [hes_del_cons]
                          rw [if_pos rfl]
                          split_ifs with d2
                          · have hl := List.length_eraseIdx_add_one d2
                            refine ⟨?_, Or.inr ⟨rfl, d2, rfl, rfl⟩⟩
                            show cursor ≤ (buffer.eraseIdx cursor).length
                            omega
                          · exact ⟨h, Or.inl rfl⟩
                        · rw [hes_del_cons, if_neg h126]
                          exact ⟨h, Or.inl rfl⟩
                    · rw [hes_csi_other b0 c2 rest2 buffer cursor h68 h67
                        h65 h66 h72 h70 h51]
                      exact ⟨h, Or.inl rfl⟩
    · by_cases h79 : c1 = 79
      · subst h79
        rcases rest with _ | ⟨c2, rest2⟩
        · exact ⟨h, Or.inl rfl⟩
        · by_cases h72 : c2 = 72
          · subst h72
            rw [hes_ss3_home]
            split_ifs <;> exact ⟨by simp <;> omega, Or.inl rfl⟩
          · by_cases h70 : c2 = 70
            · subst h70
              rw [hes_ss3_end]
              split_ifs <;> exact ⟨by simp <;> omega, Or.inl rfl⟩
            · rw [hes_ss3_other b0 c2 rest2 buffer cursor h72 h70]
              exact ⟨h, Or.inl rfl⟩
      · rw [hes_unknown b0 c1 rest buffer cursor h91 h79]
        exact ⟨h, Or.inl rfl⟩

/-- Witness for C10: Delete-forward at cursor 1 inside a three-character
buffer removes exactly the middle rune. -/
theorem editor_buffer_invariant_witness :
    (1 : Nat) ≤ (['a', 'b', 'c'] : List Char).length
    ∧ ((handleEscapeSequence [27, 91, 51, 126] ['a', 'b', 'c'] 1).cursor ≤
        (handleEscapeSequence [27, 91, 51, 126] ['a', 'b', 'c'] 1).buffer.length
      ∧ ((handleEscapeSequence [27, 91, 51, 126] ['a', 'b', 'c'] 1).buffer =
            ['a', 'b', 'c']
        ∨ (isDeleteForwardSeq [27, 91, 51, 126] = true
          ∧ 1 < (['a', 'b', 'c'] : List Char).length
          ∧ (handleEscapeSequence [27, 91, 51, 126] ['a', 'b', 'c'] 1).buffer =
              (['a', 'b', 'c'] : List Char).eraseIdx 1
          ∧ (handleEscapeSequence [27, 91, 51, 126] ['a', 'b', 'c'] 1).cursor =
              1))) :=
  ⟨by decide, editor_buffer_invariant [27, 91, 51, 126] ['a', 'b', 'c'] 1
    (by decide)⟩

/-- Witness for C6 at a concrete buffer and a positive cursor. -/
theorem escape_disambiguation_witness :
    (1 : Nat) > 0
    ∧ handleEscCase [91, 68] ['h', 'i'] 1 = ⟨false, ['h', 'i'], 0, []⟩
    ∧ (handleEscCase [] ['h', 'i'] 1).cancelled = true :=
  ⟨by decide, (escape_disambiguation ['h', 'i'] 1).2.2.2.2 (by decide),
    (escape_disambiguation ['h', 'i'] 1).1.2.2⟩

/-- A valid response has at most one boolean flag and at most one action
category. -/
theorem validResponse_counts (watchMode : Bool) (r : AIResponse)
    (hvalid : (aiFollowedGuidelines watchMode r).2 = true) :
    boolCount r ≤ 1 ∧ actionTagCount r ≤ 1 := by
  unfold aiFollowedGuidelines at hvalid
  split_ifs at hvalid with h1 h2 h3 <;> omega

/-- A valid response with non-empty paste content has no exec commands and
no send-keys entries. -/
theorem paste_only_category (watchMode : Bool) (r : AIResponse)
    (hvalid : (aiFollowedGuidelines watchMode r).2 = true)
    (hpaste : r.PasteMultilineContent ≠ "") :
    r.ExecCommand = [] ∧ r.SendKeys = [] := by
  have hcat := (validResponse_counts watchMode r hvalid).2
  unfold actionTagCount at hcat
  rw [if_neg hpaste] at hcat
  norm_num at hcat
  exact hcat

/-- The tail of the action phase only appends effects. -/
theorem processTail_effects (r : AIResponse) (watchMode pasteConfirmReq : Bool)
    (confirm : String → String → Bool → Bool × String)
    (recurseCont : Bool) (status : String) (effs : List PaneEffect) :
    ∃ t, (processTail r watchMode pasteConfirmReq confirm recurseCont status
      effs).effects = effs ++ t := by
  unfold processTail
  dsimp only
  by_cases h2 :
      (runPaste pasteConfirmReq confirm r.PasteMultilineContent).2 = false
  · rw [if_pos h2]
    exact ⟨(runPaste pasteConfirmReq confirm r.PasteMultilineContent).1, rfl⟩
  · rw [if_neg h2]
    split_ifs <;> first
      | exact ⟨(runPaste pasteConfirmReq confirm
          r.PasteMultilineContent).1, rfl⟩
      | exact ⟨(runPaste pasteConfirmReq confirm r.PasteMultilineContent).1
            ++ [PaneEffect.recurse updatedPaneContinuationPrompt],
          by rw [List.append_assoc]⟩

/-- The concrete response used to settle claim C3: both a non-empty paste
payload and the busy flag, which the guardrails accept. -/
def busyPasteResponse : AIResponse :=
  { PasteMultilineContent := "line1\nline2", ExecPaneSeemsBusy := true }

/-- The effect trace of the action phase on `busyPasteResponse` with all
confirmations required and approved, the busy recursion reporting not
accomplished. -/
def busyPasteEffects : List PaneEffect :=
  (processResponseActions busyPasteResponse false true true true false
    approveInteract 5 false false "running").effects

/-- Predicate picking out the busy-wait countdown effect. -/
def isCountdownEffect : PaneEffect → Bool
  | .countdown _ => true
  | _ => false

/-- Counterexample to claim C3 as stated: on a valid response carrying
both a non-empty `PasteMultilineContent` and `ExecPaneSeemsBusy`, the
effect trace contains both the paste injection and the countdown, but the
paste injection does NOT precede the countdown — the code runs the
busy-wait block (lines 202-211) before the paste block (lines 214-233). -/
theorem paste_before_busy_counterexample :
    (aiFollowedGuidelines false busyPasteResponse).2 = true
    ∧ busyPasteEffects.findIdx isCountdownEffect < busyPasteEffects.length
    ∧ busyPasteEffects.findIdx
        (fun e => e == PaneEffect.sendToPane "line1\nline2" true) <
        busyPasteEffects.length
    ∧ ¬ (busyPasteEffects.findIdx
          (fun e => e == PaneEffect.sendToPane "line1\nline2" true) <
        busyPasteEffects.findIdx isCountdownEffect) := by
  decide

/-- Claim C3 (amended): within one invocation, for every valid parsed
response with both a non-empty `PasteMultilineContent` and the
`ExecPaneSeemsBusy` flag, the busy-wait countdown and the busy
continuation recursion come FIRST in the effect order — before the paste
confirmation and injection (the code performs step 13 before step 12). -/
theorem busy_wait_precedes_paste (r : AIResponse)
    (watchMode execConfirmReq sendKeysConfirmReq pasteConfirmReq
      isPrepared : Bool)
    (confirm : String → String → Bool → Bool × String)
    (waitInterval : Nat) (recurseBusy recurseCont : Bool) (status : String)
    (hvalid : (aiFollowedGuidelines watchMode r).2 = true)
    (hpaste : r.PasteMultilineContent ≠ "")
    (hbusy : r.ExecPaneSeemsBusy = true) :
    ∃ rest, (processResponseActions r watchMode execConfirmReq
        sendKeysConfirmReq pasteConfirmReq isPrepared confirm waitInterval
        recurseBusy recurseCont status).effects =
      PaneEffect.countdown waitInterval ::
        PaneEffect.recurse busyContinuationPrompt :: rest := by
  obtain ⟨hexec, hkeys⟩ := paste_only_category watchMode r hvalid hpaste
  have hred : processResponseActions r watchMode execConfirmReq
      sendKeysConfirmReq pasteConfirmReq isPrepared confirm waitInterval
      recurseBusy recurseCont status =
      (if recurseBusy then
        ⟨status, true, [PaneEffect.countdown waitInterval,
          PaneEffect.recurse busyContinuationPrompt]⟩
      else processTail r watchMode pasteConfirmReq confirm recurseCont
        status [PaneEffect.countdown waitInterval,
          PaneEffect.recurse busyContinuationPrompt]) := by
    unfold processResponseActions
    rw [hexec, hkeys]
    simp [runExecCommands, runSendKeys, hbusy]
  rw [hred]
  cases recurseBusy
  · obtain ⟨t, ht⟩ := processTail_effects r watchMode pasteConfirmReq
      confirm recurseCont status [PaneEffect.countdown waitInterval,
        PaneEffect.recurse busyContinuationPrompt]
    exact ⟨t, by simpa using ht⟩
  · exact ⟨[], rfl⟩

/-- Witness for the amended C3 on the concrete busy-and-paste response. -/
theorem busy_wait_precedes_paste_witness :
    (aiFollowedGuidelines false busyPasteResponse).2 = true
    ∧ busyPasteResponse.PasteMultilineContent ≠ ""
    ∧ busyPasteResponse.ExecPaneSeemsBusy = true
    ∧ ∃ rest, (processResponseActions busyPasteResponse false true true true
        false approveInteract 5 false false "running").effects =
      PaneEffect.countdown 5 ::
        PaneEffect.recurse busyContinuationPrompt :: rest :=
  ⟨by decide, by decide, by decide,
    busy_wait_precedes_paste busyPasteResponse false true true true false
      approveInteract 5 false false "running" (by decide) (by decide)
      (by decide)⟩

/-- The confirmation oracle that denies with an empty edited command. -/
def denyConfirm : String → String → Bool → Bool × String :=
  fun _ _ _ => (false, "")

/-- Claim C7: when exec confirmation is required and the confirmation
function denies a command, the action phase clears the status, returns
`false`, and its whole effect trace is that single confirmation prompt —
the pane send function is never invoked and no further categories are
processed. -/
theorem exec_confirmation_denied (r : AIResponse) (cmd : String)
    (watchMode sendKeysConfirmReq pasteConfirmReq isPrepared : Bool)
    (confirm : String → String → Bool → Bool × String)
    (waitInterval : Nat) (recurseBusy recurseCont : Bool) (status : String)
    (hexec : r.ExecCommand = [cmd])
    (hconfirm : confirm cmd "Execute this command?" true = (false, "")) :
    processResponseActions r watchMode true sendKeysConfirmReq
      pasteConfirmReq isPrepared confirm waitInterval recurseBusy
      recurseCont status =
      ⟨"", false, [PaneEffect.confirm cmd "Execute this command?" true]⟩ := by
  unfold processResponseActions
  rw [hexec]
  simp [runExecCommands, hconfirm]

/-- Witness for C7 at the spec's concrete scenario. -/
theorem exec_confirmation_denied_witness :
    ({ ExecCommand := ["rm -rf /"] } : AIResponse).ExecCommand = ["rm -rf /"]
    ∧ denyConfirm "rm -rf /" "Execute this command?" true = (false, "")
    ∧ processResponseActions { ExecCommand := ["rm -rf /"] } false true true
        true false denyConfirm 5 false false "running" =
      ⟨"", false,
        [PaneEffect.confirm "rm -rf /" "Execute this command?" true]⟩ :=
  ⟨rfl, rfl,
    exec_confirmation_denied { ExecCommand := ["rm -rf /"] } "rm -rf /"
      false true true false denyConfirm 5 false false "running" rfl rfl⟩

end TmuxaiVerify
